import Mathlib

/-!
# Heart-rate estimation engine: shallow embedding

Shallow embedding of the heart-rate estimation engine of this repository
(`src/unnamed/part_000`, the "Final Heart Rate Calculator with Complete
Protection", and `src/heartRateProcessor.js`, the "Advanced Heart Rate
Processing Module").  JavaScript numbers are modelled as `ℤ` (sample values,
BPM values, timestamps, counters) and `ℚ` (intermediate non-integer
arithmetic: percentages, averages, correction factors, filtered-signal
values).  `Math.round` is modelled by `jsRound` below; JS float literals
such as `0.15` are embedded as the corresponding rationals.
-/

/-- JavaScript's `Math.round`: round half toward positive infinity,
which on every input equals `⌊x + 1/2⌋`. -/
def jsRound (q : ℚ) : ℤ := ⌊q + 1 / 2⌋

/-- Arithmetic mean of a list of integers, as a rational
(JS `reduce((sum, val) => sum + val, 0) / length`). -/
def listMean (l : List ℤ) : ℚ := (l.sum : ℚ) / l.length

/-! ## Heart-rate zones (`src/unnamed/part_000`, lines 27-34 and 362-371) -/

/-- One entry of the `HR_ZONES` table. -/
structure HRZone where
  name : String
  color : String
  upperLimit : ℤ
  colorCode : String
deriving DecidableEq

/-- The `HR_ZONES` table of `src/unnamed/part_000`, lines 27-34. -/
def HR_ZONES : List HRZone :=
  [⟨"Rest", "#3498db", 90, "#3498db"⟩,
   ⟨"Light", "#2ecc71", 110, "#2ecc71"⟩,
   ⟨"Moderate", "#f1c40f", 130, "#f1c40f"⟩,
   ⟨"Vigorous", "#e67e22", 150, "#e67e22"⟩,
   ⟨"High", "#e74c3c", 170, "#e74c3c"⟩,
   ⟨"Maximum", "#9b59b6", 240, "#9b59b6"⟩]

/-- Zone determination of `src/unnamed/part_000`, lines 362-371:
`zone` starts as `HR_ZONES[0]`; when `finalHeartRate > 0` the loop takes the
first table entry whose `upperLimit` is `>=` the rate and breaks; when no
entry matches, `zone` keeps its initial value `HR_ZONES[0]`. -/
def zoneForRate (finalHeartRate : ℤ) : HRZone :=
  let zone := HR_ZONES.headD ⟨"Rest", "#3498db", 90, "#3498db"⟩
  if 0 < finalHeartRate then
    (HR_ZONES.find? (fun z => finalHeartRate ≤ z.upperLimit)).getD zone
  else zone

/-! ## Interval method (`src/unnamed/part_000`, lines 142-169) -/

/-- Consecutive peak-to-peak gaps: `peaks[i] - peaks[i-1]` for `i ≥ 1`
(`src/unnamed/part_000`, lines 144-147). -/
def peakIntervals (peaks : List ℤ) : List ℤ :=
  List.zipWith (fun a b => a - b) peaks.tail peaks

/-- The filter of `src/unnamed/part_000`, lines 150-155: keep a gap iff
`interval >= 37 && interval <= 300`. -/
def validIntervalsOf (peaks : List ℤ) : List ℤ :=
  (peakIntervals peaks).filter (fun interval => 37 ≤ interval ∧ interval ≤ 300)

/-- METHOD 1 of `src/unnamed/part_000`, lines 142-169, including the
`peaks.length >= 3` guard of line 142: average the valid gaps (when at least
one remains), convert via `Math.round(60 * 150 / avgInterval)`, and discard
results outside `[40, 200]` (returning 0). -/
def intervalMethod (peaks : List ℤ) : ℤ :=
  if 3 ≤ peaks.length then
    let validIntervals := validIntervalsOf peaks
    if 0 < validIntervals.length then
      let avgInterval := listMean validIntervals
      let heartRate := jsRound (60 * 150 / avgInterval)
      if heartRate < 40 ∨ 200 < heartRate then 0 else heartRate
    else 0
  else 0

/-- The interval method as claim C3 words it (for comparison with
`intervalMethod`): keep a gap only if it lies within
`[60*150/200, 60*150/40] = [45, 225]` samples, and produce a rate only when
at least 2 gaps remain. -/
def intervalMethodClaimed (peaks : List ℤ) : ℤ :=
  let kept := (peakIntervals peaks).filter (fun interval => 45 ≤ interval ∧ interval ≤ 225)
  if 2 ≤ kept.length then
    let bpm := jsRound (60 * 150 / listMean kept)
    if bpm < 40 ∨ 200 < bpm then 0 else bpm
  else 0

/-! ## Engine state (`src/unnamed/part_000`, module-level variables) -/

/-- The module-level mutable state of `src/unnamed/part_000`. -/
structure EngineState where
  isAcquiring : Bool
  acquisitionStartTime : ℤ
  isStable : Bool
  batchesReceived : ℕ
  sampleBuffer : List ℤ
  consecutiveLowSignalBatches : ℕ
  fingerDetectedState : Bool
  consecutiveHighZoneReadings : ℕ
  firstDisplayTime : ℤ
  lastDisplayedHeartRate : ℤ
  recentHeartRates : List ℤ
deriving DecidableEq

/-- The `resetState` function of `src/unnamed/part_000`, lines 49-59.
Note that it leaves `recentHeartRates` untouched, exactly as the source does. -/
def resetState (s : EngineState) : EngineState :=
  { s with isAcquiring := false, batchesReceived := 0, sampleBuffer := [],
           consecutiveLowSignalBatches := 0, fingerDetectedState := false,
           isStable := false, consecutiveHighZoneReadings := 0,
           firstDisplayTime := 0, lastDisplayedHeartRate := 0 }

/-- The `percentBelowThreshold` computation of `src/unnamed/part_000`,
lines 76-77: the percentage of samples with value `<= 18000`. -/
def percentBelowThreshold (ppgData : List ℤ) : ℚ :=
  ((ppgData.countP (fun val => val ≤ 18000) : ℚ) / ppgData.length) * 100

/-- Line 80: `currentBatchHasFinger = percentBelowThreshold < 70`. -/
def currentBatchHasFinger (ppgData : List ℤ) : Bool :=
  percentBelowThreshold ppgData < 70

/-- The finger-detection state update of `src/unnamed/part_000`,
lines 82-97: increment the consecutive-low-signal counter on a low batch
(reset it on a good batch); set `fingerDetectedState` on any good batch and
clear it only after 2 consecutive low batches. -/
def contactUpdate (s : EngineState) (ppgData : List ℤ) : EngineState :=
  let hasFinger := currentBatchHasFinger ppgData
  let lowBatches := if hasFinger then 0 else s.consecutiveLowSignalBatches + 1
  let finger :=
    if hasFinger then true
    else if 2 ≤ lowBatches then false
    else s.fingerDetectedState
  { s with consecutiveLowSignalBatches := lowBatches, fingerDetectedState := finger }

/-- The new-acquisition block of `src/unnamed/part_000`, lines 102-110,
run when `fingerDetectedState` holds but `isAcquiring` does not. -/
def startAcquisition (s : EngineState) (currentTime : ℤ) : EngineState :=
  { s with isAcquiring := true, acquisitionStartTime := currentTime,
           isStable := false, batchesReceived := 0, sampleBuffer := [],
           consecutiveHighZoneReadings := 0, firstDisplayTime := 0 }

/-- The contact-and-acquisition phase of `src/unnamed/part_000`,
lines 74-128: update the finger state from the batch, then either start or
continue the acquisition (appending the batch to the 1000-sample buffer, as
`sampleBuffer.slice(-1000)` does) or, when the finger is gone, reset all
state.  The returned flag records the early "No signal" return of line 127. -/
def contactPhaseStep (s : EngineState) (ppgData : List ℤ) (currentTime : ℤ) :
    EngineState × Bool :=
  let s1 := contactUpdate s ppgData
  if s1.fingerDetectedState then
    let s2 := if s1.isAcquiring then s1 else startAcquisition s1 currentTime
    let s3 :=
      if currentBatchHasFinger ppgData then
        let buf := s2.sampleBuffer ++ ppgData
        { s2 with batchesReceived := s2.batchesReceived + 1,
                  sampleBuffer := if 1000 < buf.length then buf.drop (buf.length - 1000) else buf }
      else s2
    (s3, false)
  else (resetState s1, true)

/-! ## Initial warm-up correction (`src/unnamed/part_000`, lines 205-236) -/

/-- The initial-reading correction of `src/unnamed/part_000`, lines 207-230:
for a positive rate within the first `MIN_BATCHES_FOR_DISPLAY + 5 = 10`
batches, subtract `Math.round(heartRate * c * max(0, 1 - batchesReceived/10))`
with `c = 0.15` for rates `>= 130`, `c = 0.10` for rates `>= 110`, and
`c = 0.05` otherwise. -/
def initialCorrection (heartRate : ℤ) (batchesReceived : ℕ) : ℤ :=
  if 0 < heartRate then
    if batchesReceived ≤ 10 then
      let correctionFactor : ℚ := max 0 (1 - (batchesReceived : ℚ) / 10)
      if 130 ≤ heartRate then
        heartRate - jsRound ((heartRate : ℚ) * (15 / 100) * correctionFactor)
      else if 110 ≤ heartRate then
        heartRate - jsRound ((heartRate : ℚ) * (10 / 100) * correctionFactor)
      else
        heartRate - jsRound ((heartRate : ℚ) * (5 / 100) * correctionFactor)
    else heartRate
  else heartRate

/-! ## High-rate warm-up suppression (`src/unnamed/part_000`, lines 307-339) -/

/-- The decayed streak requirement of `src/unnamed/part_000`, lines 315-316:
`Math.max(MIN_HIGH_ZONE_STREAK, Math.round(5 + (60000 - t) / 15000))`. -/
def requiredStreakFor (timeSinceFirstDisplay : ℤ) : ℤ :=
  max 5 (jsRound (5 + ((60000 : ℚ) - (timeSinceFirstDisplay : ℚ)) / 15000))

/-- The "SEVERE RESTRICTION" block of `src/unnamed/part_000`, lines 307-339:
for a final rate `>= VIGOROUS_THRESHOLD = 130`, within the first 60 s since
`firstDisplayTime` (taken as 0 when no first display is recorded) a rate
without the required high-zone streak is capped at 125 and, when a lower
positive previous display exists, at `lastDisplayedHeartRate + 5`; between
60 s and 180 s only the `+8`-per-reading cap applies. -/
def suppressHighRate (finalHeartRate lastDisplayedHeartRate firstDisplayTime currentTime : ℤ)
    (consecutiveHighZoneReadings : ℕ) : ℤ :=
  if 130 ≤ finalHeartRate then
    let timeSinceFirstDisplay :=
      if 0 < firstDisplayTime then currentTime - firstDisplayTime else 0
    if timeSinceFirstDisplay < 60000 then
      if (consecutiveHighZoneReadings : ℤ) < requiredStreakFor timeSinceFirstDisplay then
        let capped := min finalHeartRate 125
        if 0 < lastDisplayedHeartRate ∧ lastDisplayedHeartRate < capped then
          min capped (lastDisplayedHeartRate + 5)
        else capped
      else finalHeartRate
    else if timeSinceFirstDisplay < 180000 then
      if (consecutiveHighZoneReadings : ℤ) < 5 then
        if 0 < lastDisplayedHeartRate ∧ lastDisplayedHeartRate < finalHeartRate then
          min finalHeartRate (lastDisplayedHeartRate + 8)
        else finalHeartRate
      else finalHeartRate
    else finalHeartRate
  else finalHeartRate

/-! ## Stability check and response assembly (`src/unnamed/part_000`,
lines 341-355 and 549-563) -/

/-- The nested pairwise loop of `src/unnamed/part_000`, lines 346-354:
true iff every pair of entries differs by at most 15 BPM. -/
def pairwiseWithin15 : List ℤ → Bool
  | [] => true
  | x :: xs => (xs.all fun y => |x - y| ≤ 15) && pairwiseWithin15 xs

/-- The `isStable` computation of `src/unnamed/part_000`, lines 341-355:
at least 3 recent readings, and the first `min(4, length)` of them pairwise
within 15 BPM. -/
def isStableCalc (recentHeartRates : List ℤ) : Bool :=
  decide (3 ≤ recentHeartRates.length) && pairwiseWithin15 (recentHeartRates.take 4)

/-- The response record of `createResponse`, `src/unnamed/part_000`,
lines 549-563 (the pass-through `debug` payload is omitted). -/
structure HRResponse where
  heartRate : ℤ
  fingerDetected : Bool
  display_value : String
  display_details : String
  zone : String
  zoneColor : String
  quality : ℚ
  confidence : ℚ
  trend : String
  phase : String
deriving DecidableEq

/-- The `createResponse` function of `src/unnamed/part_000`, lines 549-563.
The source reads the module globals `batchesReceived` and `isStable` for the
`phase` field; they are passed here as the last two parameters. -/
def createResponse (heartRate : ℤ) (fingerDetected : Bool)
    (displayValue displayDetails zoneName zoneColor trend : String)
    (batchesReceived : ℕ) (isStable : Bool) : HRResponse :=
  { heartRate := heartRate
    fingerDetected := fingerDetected
    display_value := displayValue
    display_details := displayDetails
    zone := zoneName
    zoneColor := zoneColor
    quality := if fingerDetected then 8 / 10 else 0
    confidence := if fingerDetected then 8 / 10 else 0
    trend := trend
    phase :=
      if fingerDetected then
        if batchesReceived < 5 then "acquiring"
        else if isStable then "tracking" else "stabilizing"
      else "no_signal" }

/-! ## Jump limiting (`src/heartRateProcessor.js`, lines 84-119) -/

/-- The jump-limitation block of `src/heartRateProcessor.js`, lines 86-104,
run when a positive rate was computed: with a positive previous accepted
rate and `|new - prior| > MAX_JUMP = 15`, clamp to `prior ± 15` and scale the
confidence by `0.7`. -/
def jumpLimitHR (newHeartRate lastHeartRate : ℤ) (confidence : ℚ) : ℤ × ℚ :=
  if 0 < lastHeartRate then
    if 15 < |newHeartRate - lastHeartRate| then
      (if lastHeartRate < newHeartRate then lastHeartRate + 15 else lastHeartRate - 15,
       confidence * (7 / 10))
    else (newHeartRate, confidence)
  else (newHeartRate, confidence)

/-! ## Peak detection (`src/unnamed/part_000`, lines 490-546) -/

/-- The peak acceptance test of `src/unnamed/part_000`, lines 508-513 and
529-534: index `i` strictly exceeds its two neighbors on each side, exceeds
the threshold, and lies at least `minPeakDistance = 38` samples past the
last accepted peak.  Out-of-range accesses never occur for the indices the
scan visits; `getD` with default 0 models `filteredSignal[i]`. -/
def isPeakAt (filteredSignal : List ℚ) (threshold : ℚ) (lastPeakIndex : ℤ) (i : ℕ) : Bool :=
  decide (filteredSignal.getD (i - 1) 0 < filteredSignal.getD i 0 ∧
          filteredSignal.getD (i - 2) 0 < filteredSignal.getD i 0 ∧
          filteredSignal.getD (i + 1) 0 < filteredSignal.getD i 0 ∧
          filteredSignal.getD (i + 2) 0 < filteredSignal.getD i 0 ∧
          threshold < filteredSignal.getD i 0 ∧
          38 ≤ (i : ℤ) - lastPeakIndex)

/-- One iteration of the scan loop of `src/unnamed/part_000`, lines 506-518:
on acceptance, push `i` and record it as the last accepted peak.  The state
is the pair `(peaks, lastPeakIndex)`. -/
def peakScanStep (filteredSignal : List ℚ) (threshold : ℚ)
    (st : List ℕ × ℤ) (i : ℕ) : List ℕ × ℤ :=
  if isPeakAt filteredSignal threshold st.2 i then (st.1 ++ [i], (i : ℤ)) else st

/-- One iteration of the retry loop of `src/unnamed/part_000`, lines
524-539: identical, except indices already accepted are skipped
(`if (peaks.includes(i)) continue`). -/
def peakScanStepSkip (filteredSignal : List ℚ) (threshold : ℚ)
    (st : List ℕ × ℤ) (i : ℕ) : List ℕ × ℤ :=
  if i ∈ st.1 then st else peakScanStep filteredSignal threshold st i

/-- The `detectPeaks` function of `src/unnamed/part_000`, lines 490-546:
adaptive threshold `0.5 *` the value at the 25%-from-top position of the
descending-sorted signal (`Math.floor(length * 0.25)` equals `length / 4`);
scan indices `[2, length - 2)` starting from `lastPeakIndex = -38`; when
fewer than 3 peaks result and the threshold base is positive, rescan with
the lower threshold `0.2 * thresholdBase` (keeping `lastPeakIndex` and the
accepted list) and re-sort ascending. -/
def detectPeaks (filteredSignal : List ℚ) : List ℕ :=
  let sortedSignal := filteredSignal.mergeSort (fun a b => b ≤ a)
  let thresholdBase := sortedSignal.getD (filteredSignal.length / 4) 0
  let threshold := thresholdBase * (1 / 2)
  let firstPass := (List.range' 2 (filteredSignal.length - 4)).foldl
      (peakScanStep filteredSignal threshold) ([], -38)
  if firstPass.1.length < 3 ∧ 0 < thresholdBase then
    let lowerThreshold := thresholdBase * (1 / 5)
    let secondPass := (List.range' 2 (filteredSignal.length - 4)).foldl
        (peakScanStepSkip filteredSignal lowerThreshold) firstPass
    secondPass.1.mergeSort
  else firstPass.1

/-- Invariant of the peak scan state: the accepted indices form a chain with
consecutive gaps of at least 38, and all of them are bounded by the
recorded last peak index. -/
def PeakInv (st : List ℕ × ℤ) : Prop :=
  List.Chain' (fun a b => a + 38 ≤ b) st.1 ∧ ∀ x ∈ st.1, (x : ℤ) ≤ st.2

theorem peakScanStep_inv (filteredSignal : List ℚ) (threshold : ℚ)
    (st : List ℕ × ℤ) (i : ℕ) (h : PeakInv st) :
    PeakInv (peakScanStep filteredSignal threshold st i) := by
  unfold peakScanStep
  split
  case isFalse => exact h
  case isTrue hacc =>
    have hdist : 38 ≤ (i : ℤ) - st.2 := by
      have := of_decide_eq_true hacc
      exact this.2.2.2.2.2
    constructor
    · refine List.Chain'.append h.1 (List.chain'_singleton i) ?_
      intro x hx y hy
      have hxmem : x ∈ st.1 := by
        obtain ⟨hne, hxeq⟩ := List.mem_getLast?_eq_getLast hx
        exact hxeq ▸ List.getLast_mem hne
      have hyi : i = y := by simpa using hy
      subst hyi
      have hxle : (x : ℤ) ≤ st.2 := h.2 x hxmem
      omega
    · intro x hx
      rcases List.mem_append.mp hx with hx1 | hx2
      · have := h.2 x hx1
        omega
      · have : x = i := by simpa using hx2
        omega

theorem peakScanStepSkip_inv (filteredSignal : List ℚ) (threshold : ℚ)
    (st : List ℕ × ℤ) (i : ℕ) (h : PeakInv st) :
    PeakInv (peakScanStepSkip filteredSignal threshold st i) := by
  unfold peakScanStepSkip
  split
  · exact h
  · exact peakScanStep_inv filteredSignal threshold st i h

theorem foldl_peakInv {f : List ℕ × ℤ → ℕ → List ℕ × ℤ}
    (hf : ∀ st i, PeakInv st → PeakInv (f st i)) :
    ∀ (l : List ℕ) (st : List ℕ × ℤ), PeakInv st → PeakInv (l.foldl f st)
  | [], _, h => h
  | i :: l, st, h => foldl_peakInv hf l (f st i) (hf st i h)

theorem peakChain_sorted {l : List ℕ} (h : List.Chain' (fun a b => a + 38 ≤ b) l) :
    List.Sorted (· ≤ ·) l := by
  haveI : IsTrans ℕ (fun a b => a + 38 ≤ b) := ⟨fun a b c h1 h2 => by omega⟩
  exact (List.chain'_iff_pairwise.mp h).imp (fun hab => by omega)

/-! ## Claim theorems -/

/-- C1: Warm-up suppression.  For a final BPM of at least 130, with a
recorded first display time, fewer than 60 s elapsed since it, and the
consecutive high-zone streak below
`requiredStreak = max(5, round(5 + (60000 - elapsed)/15000))`, the displayed
BPM is capped at 125, and when a prior displayed BPM exists it is further
capped at `lastDisplayedHeartRate + 5`. -/
theorem warmupSuppression :
    ∀ (finalHR lastDisp firstDisp now : ℤ) (streak : ℕ),
      130 ≤ finalHR → 0 < firstDisp → now - firstDisp < 60000 →
      (streak : ℤ) < requiredStreakFor (now - firstDisp) →
      suppressHighRate finalHR lastDisp firstDisp now streak ≤ 125 ∧
      (0 < lastDisp → suppressHighRate finalHR lastDisp firstDisp now streak ≤ lastDisp + 5) := by
  intro finalHR lastDisp firstDisp now streak h130 hfd ht hstreak
  simp only [suppressHighRate]
  rw [if_pos h130, if_pos hfd, if_pos ht, if_pos hstreak]
  constructor
  · split <;> omega
  · intro hld
    split <;> omega

/-- C1 witness: a BPM of 150 at 10 s after first display with a streak of 1
(below the required streak of 8) and a prior display of 100 is shown as at
most `min 125 105`. -/
theorem warmupSuppression_witness :
    suppressHighRate 150 100 1000 11000 1 ≤ 125 ∧
    suppressHighRate 150 100 1000 11000 1 ≤ 105 := by
  have h := warmupSuppression 150 100 1000 11000 1 (by norm_num) (by norm_num)
    (by norm_num) (by norm_num [requiredStreakFor, jsRound])
  exact ⟨h.1, h.2 (by norm_num)⟩

/-- C2 counterexample: a final BPM of 241 matches no table bound, and the
code's catch-all is the loop's initial value `HR_ZONES[0]` ("Rest"), not
"Maximum" as the claim states. -/
theorem zoneForRate_catchall_counterexample :
    (zoneForRate 241).name = "Rest" ∧ (zoneForRate 241).name ≠ "Maximum" := by
  constructor <;> decide

/-- C2 (amended): zone classification is first-match over the table
`[Rest<=90, Light<=110, Moderate<=130, Vigorous<=150, High<=170,
Maximum<=240]`; 90 maps to Rest, 91 to Light, 130 to Moderate, 131 to
Vigorous, 240 to Maximum, and any BPM above 240 (no matching bound) falls
back to the default `HR_ZONES[0]`, i.e. Rest. -/
theorem zoneClassification_table :
    (zoneForRate 90).name = "Rest" ∧ (zoneForRate 91).name = "Light" ∧
    (zoneForRate 130).name = "Moderate" ∧ (zoneForRate 131).name = "Vigorous" ∧
    (zoneForRate 240).name = "Maximum" ∧
    (∀ bpm : ℤ, 240 < bpm → (zoneForRate bpm).name = "Rest") := by
  refine ⟨by decide, by decide, by decide, by decide, by decide, ?_⟩
  intro bpm h
  have hfind : HR_ZONES.find? (fun z => bpm ≤ z.upperLimit) = none := by
    rw [List.find?_eq_none]
    intro z hz
    fin_cases hz <;> simp <;> omega
  unfold zoneForRate
  rw [if_pos (by omega : (0 : ℤ) < bpm), hfind]
  rfl

/-- C2 witness: the no-match fallback at the concrete BPM 241. -/
theorem zoneClassification_table_witness : (zoneForRate 241).name = "Rest" :=
  zoneClassification_table.2.2.2.2.2 241 (by norm_num)

/-- C3 counterexample: at peaks `[0, 40, 100]` the code's interval method
keeps the gap 40 (outside the claimed `[45, 225]` band) and produces
BPM 180 from the two gaps `[40, 60]`, while the claimed procedure (band
`[45, 225]`, at least 2 surviving gaps) produces no rate at all. -/
theorem intervalMethod_bounds_counterexample :
    intervalMethod [0, 40, 100] = 180 ∧
    intervalMethodClaimed [0, 40, 100] = 0 ∧
    validIntervalsOf [0, 40, 100] = [40, 60] ∧
    ¬ (45 ≤ (40 : ℤ) ∧ (40 : ℤ) ≤ 225) := by
  refine ⟨?_, by decide, by decide, by decide⟩
  have hv : validIntervalsOf [0, 40, 100] = [40, 60] := by decide
  simp only [intervalMethod, hv]
  norm_num [listMean, jsRound]

/-- C3 (amended): every gap the code keeps lies within `[37, 300]` samples
(not `[45, 225]`), and a rate is produced as soon as at least one valid gap
remains (not two), via `BPM = round(60*150 / mean)`, discarded when outside
`[40, 200]`. -/
theorem intervalMethod_amended :
    ∀ peaks : List ℤ, 3 ≤ peaks.length →
      (∀ gap ∈ validIntervalsOf peaks, 37 ≤ gap ∧ gap ≤ 300) ∧
      (validIntervalsOf peaks ≠ [] →
        intervalMethod peaks =
          (if jsRound (60 * 150 / listMean (validIntervalsOf peaks)) < 40 ∨
              200 < jsRound (60 * 150 / listMean (validIntervalsOf peaks)) then 0
           else jsRound (60 * 150 / listMean (validIntervalsOf peaks)))) ∧
      (validIntervalsOf peaks = [] → intervalMethod peaks = 0) := by
  intro peaks hlen
  refine ⟨?_, ?_, ?_⟩
  · intro gap hgap
    simp only [validIntervalsOf, List.mem_filter] at hgap
    exact of_decide_eq_true hgap.2
  · intro hne
    simp only [intervalMethod]
    rw [if_pos hlen, if_pos (List.length_pos.mpr hne)]
  · intro he
    simp only [intervalMethod, he]
    rw [if_pos hlen]
    simp

/-- C3 witness: at peaks `[0, 50, 100]` both gaps are kept and the method
produces BPM 180. -/
theorem intervalMethod_amended_witness :
    intervalMethod [0, 50, 100] = 180 := by
  obtain ⟨-, h2, -⟩ := intervalMethod_amended [0, 50, 100] (by decide)
  have hv : validIntervalsOf [0, 50, 100] = [50, 50] := by decide
  rw [h2 (by decide), hv]
  norm_num [listMean, jsRound]

/-- A state in which contact was previously lost while reading history from
the previous acquisition is still present (the source never clears
`recentHeartRates`). -/
def preAcquisitionState : EngineState :=
  { isAcquiring := false, acquisitionStartTime := 0, isStable := false,
    batchesReceived := 0, sampleBuffer := [], consecutiveLowSignalBatches := 2,
    fingerDetectedState := false, consecutiveHighZoneReadings := 0,
    firstDisplayTime := 0, lastDisplayedHeartRate := 0,
    recentHeartRates := [150, 90] }

set_option maxRecDepth 8000 in
/-- C4 counterexample: a contact transition from false to true (a good batch
of 100 samples above the 18000 threshold) starts a new acquisition, yet the
heart-rate history `recentHeartRates` is NOT reset: the stale readings
`[150, 90]` of the previous acquisition survive, contradicting the claim
that the history starts empty for the new acquisition. -/
theorem newAcquisition_history_counterexample :
    preAcquisitionState.fingerDetectedState = false ∧
    (contactPhaseStep preAcquisitionState (List.replicate 100 20000) 5000).1.fingerDetectedState
      = true ∧
    (contactPhaseStep preAcquisitionState (List.replicate 100 20000) 5000).1.acquisitionStartTime
      = 5000 ∧
    (contactPhaseStep preAcquisitionState (List.replicate 100 20000) 5000).1.recentHeartRates
      = [150, 90] ∧
    ([150, 90] : List ℤ) ≠ [] := by
  have hc : (((List.replicate 100 (20000 : ℤ)).countP (fun val => val ≤ 18000) : ℕ) : ℚ) = 0 := by
    decide
  have hpct : percentBelowThreshold (List.replicate 100 20000) = 0 := by
    simp only [percentBelowThreshold, hc, List.length_replicate]
    norm_num
  have hgood : currentBatchHasFinger (List.replicate 100 20000) = true := by
    simp only [currentBatchHasFinger, hpct, decide_eq_true_eq]
    norm_num
  refine ⟨rfl, ?_, ?_, ?_, by decide⟩ <;>
  · generalize hgen : List.replicate 100 (20000 : ℤ) = b at hgood ⊢
    simp [contactPhaseStep, contactUpdate, startAcquisition, preAcquisitionState, hgood]

/-- C4 (amended): on a new acquisition the engine resets the sample window,
the batch counter, the high-zone streak counter and the first-display
timestamp, clears the stability flag, and sets the acquisition start time to
the current time — but the history of recent heart rates is NOT cleared: it
persists unchanged from before the transition. -/
theorem startAcquisition_resets :
    ∀ (s : EngineState) (currentTime : ℤ),
      (startAcquisition s currentTime).sampleBuffer = [] ∧
      (startAcquisition s currentTime).batchesReceived = 0 ∧
      (startAcquisition s currentTime).consecutiveHighZoneReadings = 0 ∧
      (startAcquisition s currentTime).firstDisplayTime = 0 ∧
      (startAcquisition s currentTime).isStable = false ∧
      (startAcquisition s currentTime).isAcquiring = true ∧
      (startAcquisition s currentTime).acquisitionStartTime = currentTime ∧
      (startAcquisition s currentTime).recentHeartRates = s.recentHeartRates :=
  fun _ _ => ⟨rfl, rfl, rfl, rfl, rfl, rfl, rfl, rfl⟩

/-- C5: Contact hysteresis.  With contact held and the low-signal counter
clear, one batch whose fraction of samples at or below 18000 is at least 70%
leaves `fingerDetectedState` true; a second consecutive such batch clears
it; and any batch with that fraction below 70% sets it true and resets the
low-signal counter to 0. -/
theorem contactHysteresis :
    ∀ (s : EngineState) (b1 b2 good : List ℤ),
      (s.fingerDetectedState = true → s.consecutiveLowSignalBatches = 0 →
        100 ≤ b1.length → 100 ≤ b2.length →
        70 ≤ percentBelowThreshold b1 → 70 ≤ percentBelowThreshold b2 →
        (contactUpdate s b1).fingerDetectedState = true ∧
        (contactUpdate (contactUpdate s b1) b2).fingerDetectedState = false) ∧
      (100 ≤ good.length → percentBelowThreshold good < 70 →
        (contactUpdate s good).fingerDetectedState = true ∧
        (contactUpdate s good).consecutiveLowSignalBatches = 0) := by
  intro s b1 b2 good
  constructor
  · intro hf hlow hl1 hl2 hp1 hp2
    have hb1 : currentBatchHasFinger b1 = false := by
      simp only [currentBatchHasFinger, decide_eq_false_iff_not, not_lt]
      exact hp1
    have hb2 : currentBatchHasFinger b2 = false := by
      simp only [currentBatchHasFinger, decide_eq_false_iff_not, not_lt]
      exact hp2
    constructor
    · simp [contactUpdate, hb1, hlow, hf]
    · simp [contactUpdate, hb1, hb2, hlow]
  · intro hlg hpg
    have hg : currentBatchHasFinger good = true := by
      simp only [currentBatchHasFinger, decide_eq_true_eq]
      exact hpg
    exact ⟨by simp [contactUpdate, hg], by simp [contactUpdate, hg]⟩

/-- A state with contact established and no pending low-signal batches. -/
def contactedState : EngineState :=
  { isAcquiring := true, acquisitionStartTime := 0, isStable := false,
    batchesReceived := 3, sampleBuffer := [], consecutiveLowSignalBatches := 0,
    fingerDetectedState := true, consecutiveHighZoneReadings := 0,
    firstDisplayTime := 0, lastDisplayedHeartRate := 0, recentHeartRates := [] }

set_option maxRecDepth 8000 in
/-- C5 witness: concrete all-low batches (100 samples of value 0) and a
concrete good batch (100 samples of value 20000). -/
theorem contactHysteresis_witness :
    (contactUpdate contactedState (List.replicate 100 0)).fingerDetectedState = true ∧
    (contactUpdate (contactUpdate contactedState (List.replicate 100 0))
        (List.replicate 100 0)).fingerDetectedState = false ∧
    (contactUpdate contactedState (List.replicate 100 20000)).fingerDetectedState = true ∧
    (contactUpdate contactedState (List.replicate 100 20000)).consecutiveLowSignalBatches = 0 := by
  obtain ⟨h1, h2⟩ := contactHysteresis contactedState (List.replicate 100 0)
    (List.replicate 100 0) (List.replicate 100 20000)
  have hc0 : (((List.replicate 100 (0 : ℤ)).countP (fun val => val ≤ 18000) : ℕ) : ℚ) = 100 := by
    decide
  have hlow : (70 : ℚ) ≤ percentBelowThreshold (List.replicate 100 0) := by
    simp only [percentBelowThreshold, hc0, List.length_replicate]
    norm_num
  have hc1 : (((List.replicate 100 (20000 : ℤ)).countP (fun val => val ≤ 18000) : ℕ) : ℚ) = 0 := by
    decide
  have hgood : percentBelowThreshold (List.replicate 100 20000) < 70 := by
    simp only [percentBelowThreshold, hc1, List.length_replicate]
    norm_num
  have ha := h1 rfl rfl (by simp) (by simp) hlow hlow
  have hb := h2 (by simp) hgood
  exact ⟨ha.1, ha.2, hb.1, hb.2⟩

/-- C6: Jump limiting.  With a positive prior accepted BPM and a newly
computed raw BPM differing from it by more than `MAX_JUMP = 15`, the
accepted value is clamped to `prior + 15` (when higher) or `prior - 15`
(when lower) and the reading's confidence is multiplied by 0.7; in
particular prior 70 with new raw 95 is clamped to 85. -/
theorem jumpLimiting :
    (∀ (newHR lastHR : ℤ) (confidence : ℚ), 0 < newHR → 0 < lastHR →
        15 < |newHR - lastHR| →
        jumpLimitHR newHR lastHR confidence =
          ((if lastHR < newHR then lastHR + 15 else lastHR - 15), confidence * (7 / 10))) ∧
    (∀ confidence : ℚ, jumpLimitHR 95 70 confidence = (85, confidence * (7 / 10))) := by
  constructor
  · intro n l c hn hl hj
    simp only [jumpLimitHR]
    rw [if_pos hl, if_pos hj]
  · intro c
    simp only [jumpLimitHR]
    norm_num

/-- C6 witness: prior 70, new 95, confidence 1. -/
theorem jumpLimiting_witness : jumpLimitHR 95 70 1 = (85, 7 / 10) := by
  have h := jumpLimiting.1 95 70 1 (by norm_num) (by norm_num) (by norm_num)
  rw [h]
  norm_num

/-- Helper for C7: the nested-loop pairwise check succeeds on any list whose
entries are pairwise within 15 BPM of each other. -/
theorem pairwiseWithin15_eq_true (l : List ℤ) (h : ∀ x ∈ l, ∀ y ∈ l, |x - y| ≤ 15) :
    pairwiseWithin15 l = true := by
  induction l with
  | nil => rfl
  | cons x xs ih =>
    simp only [pairwiseWithin15, Bool.and_eq_true, List.all_eq_true]
    constructor
    · intro y hy
      exact decide_eq_true (h x (by simp) y (by simp [hy]))
    · exact ih (fun a ha b hb => h a (by simp [ha]) b (by simp [hb]))

/-- C7: Stability and phase.  With at least 3 recent readings whose first
up-to-4 entries are pairwise within 15 BPM, `isStable` is computed true; and
once at least 5 batches were received with contact held, the response phase
is "tracking" exactly when the stability flag is true ("stabilizing"
otherwise). -/
theorem stabilityAndPhase :
    (∀ rates : List ℤ, 3 ≤ rates.length →
        (∀ x ∈ rates.take 4, ∀ y ∈ rates.take 4, |x - y| ≤ 15) →
        isStableCalc rates = true) ∧
    (∀ (heartRate : ℤ) (dv dd zn zc tr : String) (batches : ℕ) (stable : Bool),
        5 ≤ batches →
        ((createResponse heartRate true dv dd zn zc tr batches stable).phase = "tracking" ↔
          stable = true)) := by
  constructor
  · intro rates hlen hpair
    simp only [isStableCalc, Bool.and_eq_true, decide_eq_true_eq]
    exact ⟨hlen, pairwiseWithin15_eq_true _ hpair⟩
  · intro hr dv dd zn zc tr b st hb
    simp only [createResponse, if_true]
    rw [if_neg (by omega : ¬ b < 5)]
    cases st
    · simp only [if_false, Bool.false_eq_true, iff_false]
      decide
    · simp

/-- C7 witness: the readings `[72, 74, 70, 73]` are pairwise within 15 BPM,
so the stability flag is true and the phase at 5 batches is "tracking". -/
theorem stabilityAndPhase_witness :
    isStableCalc [72, 74, 70, 73] = true ∧
    (createResponse 72 true "72" "Moderate" "Moderate" "#f1c40f" "stable" 5
        (isStableCalc [72, 74, 70, 73])).phase = "tracking" := by
  have h1 := stabilityAndPhase.1 [72, 74, 70, 73] (by norm_num) (by decide)
  have h2 := (stabilityAndPhase.2 72 "72" "Moderate" "Moderate" "#f1c40f" "stable" 5
      (isStableCalc [72, 74, 70, 73]) (by norm_num)).mpr h1
  exact ⟨h1, h2⟩

/-- C9: Constant confidence.  The `quality` and `confidence` fields of every
assembled response depend only on the finger-detection flag: both are 0.8
when it is true and 0 when it is false, whatever every other input is. -/
theorem createResponse_constant_confidence :
    ∀ (heartRate : ℤ) (fingerDetected : Bool) (dv dd zn zc tr : String)
      (batches : ℕ) (stable : Bool),
      (createResponse heartRate fingerDetected dv dd zn zc tr batches stable).quality =
        (if fingerDetected then (8 : ℚ) / 10 else 0) ∧
      (createResponse heartRate fingerDetected dv dd zn zc tr batches stable).confidence =
        (if fingerDetected then (8 : ℚ) / 10 else 0) ∧
      ∀ (heartRate' : ℤ) (dv' dd' zn' zc' tr' : String) (batches' : ℕ) (stable' : Bool),
        (createResponse heartRate fingerDetected dv dd zn zc tr batches stable).quality =
          (createResponse heartRate' fingerDetected dv' dd' zn' zc' tr' batches' stable').quality ∧
        (createResponse heartRate fingerDetected dv dd zn zc tr batches stable).confidence =
          HRResponse.confidence
            (createResponse heartRate' fingerDetected dv' dd' zn' zc' tr' batches' stable') :=
  fun _ _ _ _ _ _ _ _ _ => ⟨rfl, rfl, fun _ _ _ _ _ _ _ _ => ⟨rfl, rfl⟩⟩

/-- C10: Warm-up correction.  For every positive computed BPM within the
first `MIN_BATCHES_FOR_DISPLAY + 5 = 10` batches, the engine subtracts
`round(BPM * c * max(0, 1 - batchesReceived/10))` with `c` = 0.15, 0.10 or
0.05 by BPM band; the corrected value can fall below `MIN_HR = 40`: BPM 40 at
`batchesReceived = 1` becomes 38. -/
theorem initialCorrection_undershoot :
    (∀ (heartRate : ℤ) (batches : ℕ), 0 < heartRate → batches ≤ 10 →
        initialCorrection heartRate batches =
          heartRate - jsRound ((heartRate : ℚ) *
            (if 130 ≤ heartRate then 15 / 100
             else if 110 ≤ heartRate then 10 / 100 else 5 / 100) *
            max 0 (1 - (batches : ℚ) / 10))) ∧
    initialCorrection 40 1 = 38 ∧ initialCorrection 40 1 < 40 := by
  have key : ∀ (heartRate : ℤ) (batches : ℕ), 0 < heartRate → batches ≤ 10 →
      initialCorrection heartRate batches =
        heartRate - jsRound ((heartRate : ℚ) *
          (if 130 ≤ heartRate then 15 / 100
           else if 110 ≤ heartRate then 10 / 100 else 5 / 100) *
          max 0 (1 - (batches : ℚ) / 10)) := by
    intro hr b h0 hb
    simp only [initialCorrection]
    rw [if_pos h0, if_pos hb]
    split_ifs <;> rfl
  have h40 : initialCorrection 40 1 = 38 := by
    rw [key 40 1 (by norm_num) (by norm_num)]
    norm_num [jsRound]
  exact ⟨key, h40, by rw [h40]; norm_num⟩

/-- C10 witness: the general formula applied at BPM 40 in batch 1 gives 38,
which lies below `MIN_HR = 40`. -/
theorem initialCorrection_undershoot_witness :
    initialCorrection 40 1 = 38 ∧ (38 : ℤ) < 40 := by
  have h := initialCorrection_undershoot.1 40 1 (by norm_num) (by norm_num)
  rw [h]
  norm_num [jsRound]

/-- C8: Peak sequence invariant.  For every conditioned signal, the peak
detector returns a strictly increasing sequence of indices in which every
pair of consecutive peaks is at least `minPeakDistance = 38` samples apart,
including when the lower-threshold retry pass adds peaks and the result is
re-sorted ascending. -/
theorem detectPeaks_invariant :
    ∀ filteredSignal : List ℚ,
      List.Sorted (· < ·) (detectPeaks filteredSignal) ∧
      List.Chain' (fun a b => a + 38 ≤ b) (detectPeaks filteredSignal) := by
  intro sig
  have base : PeakInv ([], -38) := ⟨List.chain'_nil, by simp⟩
  have key : List.Chain' (fun a b => a + 38 ≤ b) (detectPeaks sig) := by
    simp only [detectPeaks]
    split
    · have inv2 : PeakInv ((List.range' 2 (sig.length - 4)).foldl
          (peakScanStepSkip sig
            ((sig.mergeSort fun a b => b ≤ a).getD (sig.length / 4) 0 * (1 / 5)))
          ((List.range' 2 (sig.length - 4)).foldl
            (peakScanStep sig
              ((sig.mergeSort fun a b => b ≤ a).getD (sig.length / 4) 0 * (1 / 2)))
            ([], -38))) :=
        foldl_peakInv (fun st i => peakScanStepSkip_inv sig _ st i) _ _
          (foldl_peakInv (fun st i => peakScanStep_inv sig _ st i) _ _ base)
      rw [List.mergeSort_eq_self (peakChain_sorted inv2.1)]
      exact inv2.1
    · exact (foldl_peakInv (fun st i => peakScanStep_inv sig _ st i) _ _ base).1
  refine ⟨?_, key⟩
  haveI : IsTrans ℕ (fun a b => a + 38 ≤ b) := ⟨fun a b c h1 h2 => by omega⟩
  exact (List.chain'_iff_pairwise.mp key).imp (fun hab => by omega)
